import Mathlib

/-!
Shallow embedding of the Ponca curvature estimation module
(src/Ponca/src/Fitting/curvatureEstimation.h) and of the kd-tree range
point iterator
(src/Ponca/src/SpatialPartitioning/KdTree/Iterator/kdTreeRangePointIterator.hpp).

Scalars are modelled as rationals.  The Eigen self-adjoint eigensolver is
an external collaborator of the module; it is modelled as a function
parameter constrained by a validity predicate (eigenpair equations,
nonzero eigenvectors, ascending eigenvalues), matching the documented
interface of Eigen.SelfAdjointEigenSolver.

The bodies of init, addNeighbor and finalize live in the included file
curvatureEstimation.hpp, which is not part of the sources at hand; those
bodies are modelled from the specification (each such definition carries a
doc comment starting with Modelled from the spec).  The inline accessor
bodies of BaseCurvatureEstimator, its static dimension assertion, and the
iterator operators are translated directly from the sources.
-/

namespace Ponca

/-- Scalar type of the embedding (the C++ code is generic over Scalar). -/
abbrev Scalar : Type := ℚ

/-- 3D vector type. -/
abbrev VectorType : Type := Fin 3 → Scalar

/-- 3x3 matrix type. -/
abbrev MatrixType : Type := Fin 3 → Fin 3 → Scalar

/-- 2D vector type used by the projected estimator. -/
abbrev Vec2 : Type := Fin 2 → Scalar

/-- 2x2 matrix type used by the projected estimator. -/
abbrev Mat22 : Type := Fin 2 → Fin 2 → Scalar

/-- Componentwise boolean equality of 3D vectors. -/
def vecBEq3 (a b : VectorType) : Bool :=
  (a 0 == b 0) && (a 1 == b 1) && (a 2 == b 2)

/-- Dot product of 3D vectors. -/
def dot3 (u v : VectorType) : Scalar :=
  u 0 * v 0 + u 1 * v 1 + u 2 * v 2

/-- Outer product of two 3D vectors. -/
def outer3 (u v : VectorType) : MatrixType :=
  fun i j => u i * v j

/-- Matrix-vector product for 3x3 matrices. -/
def mulVec3 (M : MatrixType) (v : VectorType) : VectorType :=
  fun i => M i 0 * v 0 + M i 1 * v 1 + M i 2 * v 2

/-- Outer product of two 2D vectors. -/
def outer2 (u v : Vec2) : Mat22 :=
  fun i j => u i * v j

/-- Matrix-vector product for 2x2 matrices. -/
def mulVec2 (M : Mat22) (v : Vec2) : Vec2 :=
  fun i => M i 0 * v 0 + M i 1 * v 1

/-- A neighbor sample: position and normal (the DataPoint concept). -/
structure DataPoint where
  pos : VectorType
  normal : VectorType

/-- Fit status codes returned by finalize. -/
inductive FIT_RESULT where
  | STABLE
  | UNSTABLE
  | UNDEFINED
  | NEED_OTHER_PASS
deriving DecidableEq, Repr

/-!  ## KdTreeRangePointIterator
Translated from kdTreeRangePointIterator.hpp.  The owning query object is
modelled by a plain identifier; operator!= compares only the stored
index m_index, and operator* returns m_index.
-/

/-- Iterator over a kd-tree range point query. -/
structure KdTreeRangePointIterator where
  m_query : ℕ
  m_index : Int

/-- operator!= from kdTreeRangePointIterator.hpp: compares m_index only. -/
def KdTreeRangePointIterator.neq (a b : KdTreeRangePointIterator) : Bool :=
  a.m_index != b.m_index

/-- operator* from kdTreeRangePointIterator.hpp: returns m_index. -/
def KdTreeRangePointIterator.deref (a : KdTreeRangePointIterator) : Int :=
  a.m_index

/-!  ## BaseCurvatureEstimator
Translated from curvatureEstimation.h lines 21 to 88: the stored fields
m_k1, m_k2, m_v1, m_v2 and the inline accessors.
-/

/-- State of BaseCurvatureEstimator: the two principal curvatures and
their directions.  kMean and the Gaussian curvature have no field here:
they are derived by the accessors below, as in the header. -/
structure BaseCurvatureEstimator where
  m_k1 : Scalar
  m_k2 : Scalar
  m_v1 : VectorType
  m_v2 : VectorType

/-- Accessor k1 from the header. -/
def BaseCurvatureEstimator.k1 (s : BaseCurvatureEstimator) : Scalar := s.m_k1

/-- Accessor k2 from the header. -/
def BaseCurvatureEstimator.k2 (s : BaseCurvatureEstimator) : Scalar := s.m_k2

/-- Accessor k1Direction from the header. -/
def BaseCurvatureEstimator.k1Direction (s : BaseCurvatureEstimator) : VectorType := s.m_v1

/-- Accessor k2Direction from the header. -/
def BaseCurvatureEstimator.k2Direction (s : BaseCurvatureEstimator) : VectorType := s.m_v2

/-- Accessor kMean from the header: (m_k1 + m_k2) / 2. -/
def BaseCurvatureEstimator.kMean (s : BaseCurvatureEstimator) : Scalar :=
  (s.m_k1 + s.m_k2) / 2

/-- Accessor GaussianCurvature from the header: m_k1 * m_k2. -/
def BaseCurvatureEstimator.GaussianCurvature (s : BaseCurvatureEstimator) : Scalar :=
  s.m_k1 * s.m_k2

/-- The static dimension contract of BaseCurvatureEstimator, from the
header line 47: static_assert ( DataPoint.Dim == 3 ).  The check is a
compile-time predicate on the dimension template argument. -/
def baseCurvatureEstimatorDimCheck (dim : ℕ) : Bool :=
  dim == 3

/-!  ## Eigen self-adjoint eigensolver (external collaborator)
The solver is modelled as a function from the matrix to a decomposition
record.  Validity (eigenpair equations, nonzero eigenvectors, ascending
eigenvalues) is stated as a predicate, matching the documented contract
of the external numeric primitives.
-/

/-- Result record of the 3x3 self-adjoint eigensolver. -/
structure SelfAdjointEigenSolver3 where
  eigenvalues : Fin 3 → Scalar
  eigenvectors : Fin 3 → VectorType

/-- Result record of the 2x2 self-adjoint eigensolver. -/
structure SelfAdjointEigenSolver2 where
  eigenvalues : Fin 2 → Scalar
  eigenvectors : Fin 2 → Vec2

/-- Validity of a 3x3 eigendecomposition: each reported pair is an
eigenpair with a nonzero eigenvector, and the eigenvalues are in
ascending order, as documented for the external solver. -/
def IsEigenDecomp3 (M : MatrixType) (d : SelfAdjointEigenSolver3) : Prop :=
  (∀ k : Fin 3, mulVec3 M (d.eigenvectors k) = d.eigenvalues k • d.eigenvectors k) ∧
  (∀ k : Fin 3, d.eigenvectors k ≠ 0) ∧
  (d.eigenvalues 0 ≤ d.eigenvalues 1 ∧ d.eigenvalues 1 ≤ d.eigenvalues 2)

instance isEigenDecomp3Decidable (M : MatrixType) (d : SelfAdjointEigenSolver3) :
    Decidable (IsEigenDecomp3 M d) := by
  unfold IsEigenDecomp3
  infer_instance

/-- Index of an eigenvalue of largest absolute value among the three. -/
def argmaxAbs3 (e : Fin 3 → Scalar) : Fin 3 :=
  if |e 1| ≤ |e 0| ∧ |e 2| ≤ |e 0| then 0
  else if |e 2| ≤ |e 1| then 1
  else 2

/-- Index of an eigenvalue of smallest absolute value among the three. -/
def argminAbs3 (e : Fin 3 → Scalar) : Fin 3 :=
  if |e 0| ≤ |e 1| ∧ |e 0| ≤ |e 2| then 0
  else if |e 1| ≤ |e 2| then 1
  else 2

/-- Index of an eigenvalue of largest absolute value among the two. -/
def argmaxAbs2 (e : Fin 2 → Scalar) : Fin 2 :=
  if |e 1| ≤ |e 0| then 0 else 1

/-- Index of an eigenvalue of smallest absolute value among the two. -/
def argminAbs2 (e : Fin 2 → Scalar) : Fin 2 :=
  if |e 0| ≤ |e 1| then 0 else 1

/-!  ## NormalCovarianceCurvature (single pass)
Declared in curvatureEstimation.h lines 103 to 144.  The bodies of init,
addNeighbor and finalize are in the included curvatureEstimation.hpp,
absent from the sources at hand; they are modelled from the spec.
-/

/-- State of NormalCovarianceCurvature: base fields plus the gravity
center accumulator m_cog, the covariance accumulator m_cov and the
accepted sample count. -/
structure NormalCovarianceCurvature extends BaseCurvatureEstimator where
  m_evalPos : VectorType
  m_cog : VectorType
  m_cov : MatrixType
  m_count : ℕ

/-- Modelled from the spec: init of NormalCovarianceCurvature (body in
the missing curvatureEstimation.hpp).  Resets all accumulators to zero
and stores the evaluation position. -/
def NormalCovarianceCurvature.init (q : VectorType) : NormalCovarianceCurvature :=
  { m_k1 := 0, m_k2 := 0, m_v1 := 0, m_v2 := 0,
    m_evalPos := q, m_cog := 0, m_cov := 0, m_count := 0 }

/-- Modelled from the spec: addNeighbor of NormalCovarianceCurvature
(body in the missing curvatureEstimation.hpp).  A sample coinciding with
the evaluation position is rejected (zero-distance exclusion); an
accepted sample contributes its normal to the running sum of normals and
the running sum of normal outer products. -/
def NormalCovarianceCurvature.addNeighbor (s : NormalCovarianceCurvature)
    (nei : DataPoint) : Bool × NormalCovarianceCurvature :=
  if vecBEq3 nei.pos s.m_evalPos then (false, s)
  else (true,
    { s with m_cog := s.m_cog + nei.normal,
             m_cov := s.m_cov + outer3 nei.normal nei.normal,
             m_count := s.m_count + 1 })

/-- Accumulation of a whole neighbor list, one addNeighbor call per
sample, keeping only the state. -/
def NormalCovarianceCurvature.accum (s : NormalCovarianceCurvature)
    (l : List DataPoint) : NormalCovarianceCurvature :=
  l.foldl (fun t nei => (t.addNeighbor nei).2) s

/-- The covariance matrix computed by finalize from the accumulators:
sum of outer products minus count times the outer product of the mean
normal with itself. -/
def NormalCovarianceCurvature.covMatrix (s : NormalCovarianceCurvature) : MatrixType :=
  fun i j => s.m_cov i j -
    (s.m_count : Scalar) *
      ((((s.m_count : Scalar))⁻¹ • s.m_cog) i * (((s.m_count : Scalar))⁻¹ • s.m_cog) j)

/-- Modelled from the spec: finalize of NormalCovarianceCurvature (body
in the missing curvatureEstimation.hpp).  With fewer than 3 accepted
samples the result is UNDEFINED; otherwise the covariance of the normals
about their mean is formed, the external solver is run on it, and the
eigenpairs of largest and smallest absolute eigenvalue are selected as
(k1, v1) and (k2, v2).  The solver is passed as a parameter. -/
def NormalCovarianceCurvature.finalize (sol : MatrixType → SelfAdjointEigenSolver3)
    (s : NormalCovarianceCurvature) : FIT_RESULT × NormalCovarianceCurvature :=
  if s.m_count < 3 then (FIT_RESULT.UNDEFINED, s)
  else
    (FIT_RESULT.STABLE,
      { s with
        m_cog := ((s.m_count : Scalar))⁻¹ • s.m_cog,
        m_cov := s.covMatrix,
        m_k1 := (sol s.covMatrix).eigenvalues (argmaxAbs3 (sol s.covMatrix).eigenvalues),
        m_v1 := (sol s.covMatrix).eigenvectors (argmaxAbs3 (sol s.covMatrix).eigenvalues),
        m_k2 := (sol s.covMatrix).eigenvalues (argminAbs3 (sol s.covMatrix).eigenvalues),
        m_v2 := (sol s.covMatrix).eigenvectors (argminAbs3 (sol s.covMatrix).eigenvalues) })

/-- One full run of the single-pass estimator: init, accumulate the
neighbor list, finalize. -/
def nccCompute (sol : MatrixType → SelfAdjointEigenSolver3) (q : VectorType)
    (l : List DataPoint) : FIT_RESULT × NormalCovarianceCurvature :=
  ((NormalCovarianceCurvature.init q).accum l).finalize sol

/-!  ## Specification-side definitions for the covariance claim -/

/-- The neighbors a run at evaluation position q accepts: those whose
position differs from q. -/
def acceptedNeighbors (q : VectorType) (l : List DataPoint) : List DataPoint :=
  l.filter (fun p => !(vecBEq3 p.pos q))

/-- Normals of the accepted neighbors. -/
def acceptedNormals (q : VectorType) (l : List DataPoint) : List VectorType :=
  (acceptedNeighbors q l).map DataPoint.normal

/-- Number of accepted neighbors. -/
def acceptedCount (q : VectorType) (l : List DataPoint) : ℕ :=
  (acceptedNeighbors q l).length

/-- Mean of a list of vectors. -/
def centroid (ns : List VectorType) : VectorType :=
  ((ns.length : Scalar))⁻¹ • ns.sum

/-- The covariance written the way the spec words it: the sum over the
list of the outer products of the deviations from the centroid. -/
def listCovariance (ns : List VectorType) : MatrixType :=
  (ns.map (fun n => outer3 (n - centroid ns) (n - centroid ns))).sum

/-!  ## ProjectedNormalCovarianceCurvature (two passes)
Declared in curvatureEstimation.h lines 161 to 218.  The bodies of init,
addNeighbor and finalize are in the missing curvatureEstimation.hpp and
are modelled from the spec.  The plane-fit collaborator is modelled by
its fitted normal and its fit status, both parameters of finalize; the
tangent-frame construction (an external numeric primitive needing square
roots) is a function parameter as well.
-/

/-- The pass indicator of the two-pass estimator, from the header
(the PASS_COUNT sentinel of the C++ enum is omitted). -/
inductive PASS where
  | FIRST_PASS
  | SECOND_PASS
deriving DecidableEq, Repr

/-- State of ProjectedNormalCovarianceCurvature: base fields plus the 2D
gravity center, the 2x2 covariance accumulator, the current pass, the
tangent frame (two 3D basis vectors, the columns of m_tframe) and the
accepted sample count of the current pass. -/
structure ProjectedNormalCovarianceCurvature extends BaseCurvatureEstimator where
  m_evalPos : VectorType
  m_cog : Vec2
  m_cov : Mat22
  m_pass : PASS
  m_tframe : VectorType × VectorType
  m_count : ℕ

/-- A freshly constructed two-pass estimator: everything zero, first
pass pending. -/
def ProjectedNormalCovarianceCurvature.create : ProjectedNormalCovarianceCurvature :=
  { m_k1 := 0, m_k2 := 0, m_v1 := 0, m_v2 := 0,
    m_evalPos := 0, m_cog := 0, m_cov := 0,
    m_pass := PASS.FIRST_PASS, m_tframe := (0, 0), m_count := 0 }

/-- Modelled from the spec: init of ProjectedNormalCovarianceCurvature
(body in the missing curvatureEstimation.hpp).  Resets the accumulators
and the result fields and stores the evaluation position, but preserves
the pass indicator and the tangent frame computed by a completed prior
pass, so that init may be called again to start pass 2. -/
def ProjectedNormalCovarianceCurvature.init (s : ProjectedNormalCovarianceCurvature)
    (q : VectorType) : ProjectedNormalCovarianceCurvature :=
  { s with m_evalPos := q, m_cog := 0, m_cov := 0, m_count := 0,
           m_k1 := 0, m_k2 := 0, m_v1 := 0, m_v2 := 0 }

/-- Modelled from the spec: addNeighbor of
ProjectedNormalCovarianceCurvature (body in the missing
curvatureEstimation.hpp).  A sample coinciding with the evaluation
position is rejected.  In the first pass nothing numeric is accumulated
beyond the accepted count (the plane fit runs in a collaborator); in the
second pass the normal is projected onto the tangent frame and the 2D
sums are updated. -/
def ProjectedNormalCovarianceCurvature.addNeighbor
    (s : ProjectedNormalCovarianceCurvature) (nei : DataPoint) :
    Bool × ProjectedNormalCovarianceCurvature :=
  if vecBEq3 nei.pos s.m_evalPos then (false, s)
  else
    match s.m_pass with
    | PASS.FIRST_PASS => (true, { s with m_count := s.m_count + 1 })
    | PASS.SECOND_PASS =>
        (true,
          { s with
            m_cog := s.m_cog + ![dot3 nei.normal s.m_tframe.1, dot3 nei.normal s.m_tframe.2],
            m_cov := s.m_cov + outer2 ![dot3 nei.normal s.m_tframe.1, dot3 nei.normal s.m_tframe.2]
                                      ![dot3 nei.normal s.m_tframe.1, dot3 nei.normal s.m_tframe.2],
            m_count := s.m_count + 1 })

/-- Accumulation of a whole neighbor list for the two-pass estimator. -/
def ProjectedNormalCovarianceCurvature.accum (s : ProjectedNormalCovarianceCurvature)
    (l : List DataPoint) : ProjectedNormalCovarianceCurvature :=
  l.foldl (fun t nei => (t.addNeighbor nei).2) s

/-- The 2x2 covariance matrix computed by the second-pass finalize from
the accumulators. -/
def ProjectedNormalCovarianceCurvature.covMatrix
    (s : ProjectedNormalCovarianceCurvature) : Mat22 :=
  fun i j => s.m_cov i j -
    (s.m_count : Scalar) *
      ((((s.m_count : Scalar))⁻¹ • s.m_cog) i * (((s.m_count : Scalar))⁻¹ • s.m_cog) j)

/-- Modelled from the spec: finalize of
ProjectedNormalCovarianceCurvature (body in the missing
curvatureEstimation.hpp).  In the first pass: if the plane-fit
collaborator reported UNDEFINED the result is UNDEFINED, otherwise the
tangent frame of the fitted normal is stored, the pass advances and the
result is NEED_OTHER_PASS.  In the second pass: with fewer than 2
accepted samples the result is UNDEFINED, otherwise the 2x2 covariance
is analysed by the external solver, the extreme eigenpairs are selected
and the 2D eigenvectors are mapped back to 3D through the stored tangent
frame. -/
def ProjectedNormalCovarianceCurvature.finalize
    (sol : Mat22 → SelfAdjointEigenSolver2)
    (frameOf : VectorType → VectorType × VectorType)
    (planeNormal : VectorType) (planeResult : FIT_RESULT)
    (s : ProjectedNormalCovarianceCurvature) :
    FIT_RESULT × ProjectedNormalCovarianceCurvature :=
  match s.m_pass with
  | PASS.FIRST_PASS =>
      if planeResult = FIT_RESULT.UNDEFINED then (FIT_RESULT.UNDEFINED, s)
      else (FIT_RESULT.NEED_OTHER_PASS,
        { s with m_tframe := frameOf planeNormal, m_pass := PASS.SECOND_PASS })
  | PASS.SECOND_PASS =>
      if s.m_count < 2 then (FIT_RESULT.UNDEFINED, s)
      else
        (FIT_RESULT.STABLE,
          { s with
            m_cog := ((s.m_count : Scalar))⁻¹ • s.m_cog,
            m_cov := s.covMatrix,
            m_k1 := (sol s.covMatrix).eigenvalues (argmaxAbs2 (sol s.covMatrix).eigenvalues),
            m_v1 := (sol s.covMatrix).eigenvectors (argmaxAbs2 (sol s.covMatrix).eigenvalues) 0 • s.m_tframe.1 +
                    (sol s.covMatrix).eigenvectors (argmaxAbs2 (sol s.covMatrix).eigenvalues) 1 • s.m_tframe.2,
            m_k2 := (sol s.covMatrix).eigenvalues (argminAbs2 (sol s.covMatrix).eigenvalues),
            m_v2 := (sol s.covMatrix).eigenvectors (argminAbs2 (sol s.covMatrix).eigenvalues) 0 • s.m_tframe.1 +
                    (sol s.covMatrix).eigenvectors (argminAbs2 (sol s.covMatrix).eigenvalues) 1 • s.m_tframe.2 })

/-- The first init/accumulate/finalize cycle of the two-pass estimator
on a fresh instance. -/
def projPassOne (sol : Mat22 → SelfAdjointEigenSolver2)
    (frameOf : VectorType → VectorType × VectorType)
    (planeNormal : VectorType) (planeResult : FIT_RESULT)
    (q : VectorType) (l : List DataPoint) :
    FIT_RESULT × ProjectedNormalCovarianceCurvature :=
  ((ProjectedNormalCovarianceCurvature.create.init q).accum l).finalize
    sol frameOf planeNormal planeResult

/-- The second init/accumulate/finalize cycle, starting from the state
left by the first cycle and sweeping the same neighbor list again. -/
def projPassTwo (sol : Mat22 → SelfAdjointEigenSolver2)
    (frameOf : VectorType → VectorType × VectorType)
    (planeNormal : VectorType) (planeResult : FIT_RESULT)
    (q : VectorType) (l : List DataPoint) :
    FIT_RESULT × ProjectedNormalCovarianceCurvature :=
  (((projPassOne sol frameOf planeNormal planeResult q l).2.init q).accum l).finalize
    sol frameOf planeNormal planeResult

/-!  ## Weight functor parameter
In the header both estimators are templates over a weight functor
_WFunctor, and the TODO comments record that the weighting function is
not used: no sum depends on it.  The wrappers below carry the functor
the way the C++ template does, and ignore it the way the bodies do.
-/

/-- A weight functor: evaluation position and sample to scalar weight. -/
def WFunctor : Type := VectorType → DataPoint → Scalar

/-- The single-pass run carried out by an instance holding the weight
functor w; the functor is unused, as in the source. -/
def nccComputeW (w : WFunctor) (sol : MatrixType → SelfAdjointEigenSolver3)
    (q : VectorType) (l : List DataPoint) : FIT_RESULT × NormalCovarianceCurvature :=
  nccCompute sol q l

/-- The two-pass run carried out by an instance holding the weight
functor w; the functor is unused, as in the source. -/
def projComputeW (w : WFunctor) (sol : Mat22 → SelfAdjointEigenSolver2)
    (frameOf : VectorType → VectorType × VectorType)
    (planeNormal : VectorType) (planeResult : FIT_RESULT)
    (q : VectorType) (l : List DataPoint) :
    (FIT_RESULT × ProjectedNormalCovarianceCurvature) ×
    (FIT_RESULT × ProjectedNormalCovarianceCurvature) :=
  (projPassOne sol frameOf planeNormal planeResult q l,
   projPassTwo sol frameOf planeNormal planeResult q l)

/-- All normals of a list collinear: every one is a scalar multiple of a
common direction. -/
def AllCollinear (ns : List VectorType) : Prop :=
  ∃ d : VectorType, ∀ n ∈ ns, ∃ t : Scalar, n = t • d

/-!  ## Concrete fixtures used by the witness theorems -/

/-- A sample evaluation position. -/
def wQ : VectorType := ![9, 9, 9]

/-- Sample neighbor list with pairwise distinct, non collinear normals. -/
def wL : List DataPoint :=
  [⟨![1, 0, 0], ![1, 0, 0]⟩, ⟨![0, 1, 0], ![0, 1, 0]⟩, ⟨![0, 0, 1], ![0, 0, 1]⟩]

/-- Sample neighbor list with all normals equal to (0, 0, 1). -/
def fL : List DataPoint :=
  [⟨![1, 0, 0], ![0, 0, 1]⟩, ⟨![0, 1, 0], ![0, 0, 1]⟩, ⟨![1, 1, 0], ![0, 0, 1]⟩]

/-- A concrete 3x3 solver: the constant decomposition that is valid for
the covariance computed from wL. -/
def wSol3 : MatrixType → SelfAdjointEigenSolver3 :=
  fun _ => ⟨![0, 1, 1], ![![1, 1, 1], ![1, -1, 0], ![1, 1, -2]]⟩

/-- A concrete 3x3 solver: the constant decomposition that is valid for
the zero matrix, the covariance computed from fL. -/
def fSol3 : MatrixType → SelfAdjointEigenSolver3 :=
  fun _ => ⟨![0, 0, 0], ![![1, 0, 0], ![0, 1, 0], ![0, 0, 1]]⟩

/-- A concrete 2x2 solver. -/
def wSol2 : Mat22 → SelfAdjointEigenSolver2 :=
  fun _ => ⟨![0, 0], ![![1, 0], ![0, 1]]⟩

/-- A concrete tangent-frame constructor. -/
def wFrame : VectorType → VectorType × VectorType :=
  fun _ => (![1, 0, 0], ![0, 1, 0])

/-- The covariance matrix the single-pass run computes on wL: diagonal
entries 2/3, off-diagonal entries -1/3. -/
def wCov : MatrixType := fun i j => if i = j then 2 / 3 else -(1 / 3)

/-!  ## Helper lemmas: list sums -/

lemma sum_map_addS {α : Type} (l : List α) (f g : α → Scalar) :
    (l.map (fun x => f x + g x)).sum = (l.map f).sum + (l.map g).sum := by
  induction l with
  | nil => simp
  | cons a t ih => simp [ih]; ring

lemma sum_map_mulS {α : Type} (l : List α) (a : Scalar) (f : α → Scalar) :
    (l.map (fun x => a * f x)).sum = a * (l.map f).sum := by
  induction l with
  | nil => simp
  | cons b t ih => simp [ih]; ring

lemma sum_map_constS {α : Type} (l : List α) (a : Scalar) :
    (l.map (fun _ => a)).sum = (l.length : Scalar) * a := by
  induction l with
  | nil => simp
  | cons b t ih => simp [ih]; ring

lemma vsum_apply (l : List VectorType) (i : Fin 3) :
    l.sum i = (l.map (fun v => v i)).sum := by
  induction l with
  | nil => rfl
  | cons a t ih => simp [List.sum_cons, Pi.add_apply, ih]

lemma msum_apply (l : List MatrixType) (i j : Fin 3) :
    l.sum i j = (l.map (fun M => M i j)).sum := by
  induction l with
  | nil => rfl
  | cons a t ih => simp [List.sum_cons, Pi.add_apply, ih]

/-!  ## Helper lemmas: accumulation of the single-pass estimator -/

lemma ncc_addNeighbor_evalPos (s : NormalCovarianceCurvature) (p : DataPoint) :
    ((s.addNeighbor p).2).m_evalPos = s.m_evalPos := by
  unfold NormalCovarianceCurvature.addNeighbor
  split_ifs <;> rfl

lemma ncc_accum_evalPos (s : NormalCovarianceCurvature) (l : List DataPoint) :
    (s.accum l).m_evalPos = s.m_evalPos := by
  induction l generalizing s with
  | nil => rfl
  | cons p t ih =>
      rw [show s.accum (p :: t) = ((s.addNeighbor p).2).accum t from rfl, ih,
          ncc_addNeighbor_evalPos]

lemma ncc_accum_cog (s : NormalCovarianceCurvature) (l : List DataPoint) :
    (s.accum l).m_cog = s.m_cog + (acceptedNormals s.m_evalPos l).sum := by
  induction l generalizing s with
  | nil => simp [NormalCovarianceCurvature.accum, acceptedNormals, acceptedNeighbors]
  | cons p t ih =>
      rw [show s.accum (p :: t) = ((s.addNeighbor p).2).accum t from rfl, ih]
      by_cases h : vecBEq3 p.pos s.m_evalPos
      · simp [NormalCovarianceCurvature.addNeighbor, h, acceptedNormals,
              acceptedNeighbors, List.filter_cons]
      · simp [NormalCovarianceCurvature.addNeighbor, h, acceptedNormals,
              acceptedNeighbors, List.filter_cons, add_assoc]

lemma ncc_accum_cov (s : NormalCovarianceCurvature) (l : List DataPoint) :
    (s.accum l).m_cov = s.m_cov +
      ((acceptedNormals s.m_evalPos l).map (fun n => outer3 n n)).sum := by
  induction l generalizing s with
  | nil => simp [NormalCovarianceCurvature.accum, acceptedNormals, acceptedNeighbors]
  | cons p t ih =>
      rw [show s.accum (p :: t) = ((s.addNeighbor p).2).accum t from rfl, ih]
      by_cases h : vecBEq3 p.pos s.m_evalPos
      · simp [NormalCovarianceCurvature.addNeighbor, h, acceptedNormals,
              acceptedNeighbors, List.filter_cons]
      · simp [NormalCovarianceCurvature.addNeighbor, h, acceptedNormals,
              acceptedNeighbors, List.filter_cons, add_assoc]

lemma ncc_accum_count (s : NormalCovarianceCurvature) (l : List DataPoint) :
    (s.accum l).m_count = s.m_count + acceptedCount s.m_evalPos l := by
  induction l generalizing s with
  | nil => simp [NormalCovarianceCurvature.accum, acceptedCount, acceptedNeighbors]
  | cons p t ih =>
      rw [show s.accum (p :: t) = ((s.addNeighbor p).2).accum t from rfl, ih]
      by_cases h : vecBEq3 p.pos s.m_evalPos
      · simp [NormalCovarianceCurvature.addNeighbor, h, acceptedCount,
              acceptedNeighbors, List.filter_cons]
      · simp [NormalCovarianceCurvature.addNeighbor, h, acceptedCount,
              acceptedNeighbors, List.filter_cons]
        omega

/-!  ## Claim theorems: accessors, static check, iterator, init frame,
weight independence, insufficient samples -/

/-- Claim C3: for every state of a curvature estimator, kMean returns
exactly (k1 + k2) / 2 and the Gaussian-curvature accessor returns
exactly k1 * k2; both are derived from the stored k1 and k2 (the state
has no field for them). -/
theorem kMean_gaussian_derived (s : BaseCurvatureEstimator) :
    s.kMean = (s.k1 + s.k2) / 2 ∧ s.GaussianCurvature = s.k1 * s.k2 :=
  ⟨rfl, rfl⟩

/-- Claim C7: the static dimension contract of the curvature estimators
accepts dimension 3 and rejects every other dimension. -/
theorem static_dim_check :
    baseCurvatureEstimatorDimCheck 3 = true ∧
    ∀ d : ℕ, d ≠ 3 → baseCurvatureEstimatorDimCheck d = false :=
  ⟨rfl, fun _ h => beq_eq_false_iff_ne.mpr h⟩

/-- Witness for claim C7 at dimension 2. -/
theorem static_dim_check_witness :
    baseCurvatureEstimatorDimCheck 3 = true ∧ baseCurvatureEstimatorDimCheck 2 = false :=
  ⟨static_dim_check.1, static_dim_check.2 2 (by decide)⟩

/-- Claim C10: two iterators compare unequal exactly when their stored
indices differ, irrespective of the owning query object, and
dereferencing returns the stored index. -/
theorem kdtree_iterator_neq_deref (a b : KdTreeRangePointIterator) :
    (KdTreeRangePointIterator.neq a b = true ↔ a.m_index ≠ b.m_index) ∧
    KdTreeRangePointIterator.deref a = a.m_index ∧
    (∀ q1 q2 : ℕ,
      KdTreeRangePointIterator.neq { a with m_query := q1 } { b with m_query := q2 } =
        KdTreeRangePointIterator.neq a b) := by
  refine ⟨?_, rfl, fun _ _ => rfl⟩
  simp [KdTreeRangePointIterator.neq, bne_iff_ne]

/-- Claim C6: init of the two-pass estimator resets the accumulators and
the result fields, stores the evaluation position, and leaves the
tangent frame and the pass indicator unchanged, so nothing computed by a
completed prior pass is lost across a repeated init call. -/
theorem proj_init_preserves_prior_pass (s : ProjectedNormalCovarianceCurvature)
    (q : VectorType) :
    (s.init q).m_tframe = s.m_tframe ∧ (s.init q).m_pass = s.m_pass ∧
    (s.init q).m_evalPos = q ∧ (s.init q).m_cog = 0 ∧ (s.init q).m_cov = 0 ∧
    (s.init q).m_count = 0 :=
  ⟨rfl, rfl, rfl, rfl, rfl, rfl⟩

/-- Claim C9: the weight functor held by either estimator does not
influence any result: runs with any two functors agree on the fit status
and on the whole final state (k1, k2 and both directions included). -/
theorem weight_functor_independent (w1 w2 : WFunctor)
    (sol3 : MatrixType → SelfAdjointEigenSolver3)
    (sol2 : Mat22 → SelfAdjointEigenSolver2)
    (frameOf : VectorType → VectorType × VectorType)
    (pn : VectorType) (pr : FIT_RESULT) (q : VectorType) (l : List DataPoint) :
    nccComputeW w1 sol3 q l = nccComputeW w2 sol3 q l ∧
    projComputeW w1 sol2 frameOf pn pr q l = projComputeW w2 sol2 frameOf pn pr q l :=
  ⟨rfl, rfl⟩

/-- Claim C5: with fewer than 3 accepted samples the single-pass
estimator finalize reports UNDEFINED. -/
theorem ncc_finalize_undefined_below_threshold
    (sol : MatrixType → SelfAdjointEigenSolver3) (q : VectorType) (l : List DataPoint)
    (h : acceptedCount q l < 3) :
    (nccCompute sol q l).1 = FIT_RESULT.UNDEFINED := by
  have hc : ((NormalCovarianceCurvature.init q).accum l).m_count = acceptedCount q l := by
    have := ncc_accum_count (NormalCovarianceCurvature.init q) l
    simpa [NormalCovarianceCurvature.init] using this
  simp [nccCompute, NormalCovarianceCurvature.finalize, hc, h]

/-- Witness for claim C5 on the empty neighbor set. -/
theorem ncc_finalize_undefined_below_threshold_witness :
    acceptedCount wQ [] < 3 ∧ (nccCompute wSol3 wQ []).1 = FIT_RESULT.UNDEFINED :=
  ⟨by decide, ncc_finalize_undefined_below_threshold wSol3 wQ [] (by decide)⟩

/-!  ## Helper lemmas: extreme eigenvalue selection -/

lemma le_abs_argmaxAbs3 (e : Fin 3 → Scalar) (k : Fin 3) :
    |e k| ≤ |e (argmaxAbs3 e)| := by
  have ha : |e 0| ≤ |e (argmaxAbs3 e)| := by
    unfold argmaxAbs3
    split_ifs with h1 h2
    · exact le_rfl
    · rcases not_and_or.mp h1 with h | h <;> push_neg at h <;> linarith
    · push_neg at h2
      rcases not_and_or.mp h1 with h | h <;> push_neg at h <;> linarith
  have hb : |e 1| ≤ |e (argmaxAbs3 e)| := by
    unfold argmaxAbs3
    split_ifs with h1 h2
    · exact h1.1
    · exact le_rfl
    · push_neg at h2; linarith
  have hc : |e 2| ≤ |e (argmaxAbs3 e)| := by
    unfold argmaxAbs3
    split_ifs with h1 h2
    · exact h1.2
    · exact h2
    · exact le_rfl
  fin_cases k
  · exact ha
  · exact hb
  · exact hc

lemma abs_argminAbs3_le (e : Fin 3 → Scalar) (k : Fin 3) :
    |e (argminAbs3 e)| ≤ |e k| := by
  have ha : |e (argminAbs3 e)| ≤ |e 0| := by
    unfold argminAbs3
    split_ifs with h1 h2
    · exact le_rfl
    · rcases not_and_or.mp h1 with h | h <;> push_neg at h <;> linarith
    · push_neg at h2
      rcases not_and_or.mp h1 with h | h <;> push_neg at h <;> linarith
  have hb : |e (argminAbs3 e)| ≤ |e 1| := by
    unfold argminAbs3
    split_ifs with h1 h2
    · exact h1.1
    · exact le_rfl
    · push_neg at h2; linarith
  have hc : |e (argminAbs3 e)| ≤ |e 2| := by
    unfold argminAbs3
    split_ifs with h1 h2
    · exact h1.2
    · exact h2
    · exact le_rfl
  fin_cases k
  · exact ha
  · exact hb
  · exact hc

/-- Claim C2: on a neighbor set with at least the minimum number of
accepted samples whose normals are not all collinear, the single-pass
finalize returns STABLE and afterwards the absolute value of k1 is at
least the absolute value of k2. -/
theorem ncc_stable_and_extreme_order
    (sol : MatrixType → SelfAdjointEigenSolver3) (q : VectorType) (l : List DataPoint)
    (h3 : 3 ≤ acceptedCount q l)
    (hnc : ¬ AllCollinear (acceptedNormals q l)) :
    (nccCompute sol q l).1 = FIT_RESULT.STABLE ∧
    |(nccCompute sol q l).2.toBaseCurvatureEstimator.k2| ≤
      |(nccCompute sol q l).2.toBaseCurvatureEstimator.k1| := by
  have hc : ((NormalCovarianceCurvature.init q).accum l).m_count = acceptedCount q l := by
    have := ncc_accum_count (NormalCovarianceCurvature.init q) l
    simpa [NormalCovarianceCurvature.init] using this
  have hlt : ¬ ((NormalCovarianceCurvature.init q).accum l).m_count < 3 := by omega
  constructor
  · simp [nccCompute, NormalCovarianceCurvature.finalize, hlt]
  · simp only [nccCompute, NormalCovarianceCurvature.finalize, hlt, if_false,
      BaseCurvatureEstimator.k1, BaseCurvatureEstimator.k2]
    exact abs_argminAbs3_le _ _

/-- Witness for claim C2 on a concrete three-sample neighborhood with
pairwise orthogonal normals. -/
theorem ncc_stable_and_extreme_order_witness :
    (3 ≤ acceptedCount wQ wL ∧ ¬ AllCollinear (acceptedNormals wQ wL)) ∧
    ((nccCompute wSol3 wQ wL).1 = FIT_RESULT.STABLE ∧
     |(nccCompute wSol3 wQ wL).2.toBaseCurvatureEstimator.k2| ≤
       |(nccCompute wSol3 wQ wL).2.toBaseCurvatureEstimator.k1|) := by
  have h3 : 3 ≤ acceptedCount wQ wL := by decide
  have hnc : ¬ AllCollinear (acceptedNormals wQ wL) := by
    have hns : acceptedNormals wQ wL = [![1, 0, 0], ![0, 1, 0], ![0, 0, 1]] := by decide
    rw [hns]
    rintro ⟨d, hd⟩
    rcases hd ![1, 0, 0] (by simp) with ⟨t1, ht1⟩
    rcases hd ![0, 1, 0] (by simp) with ⟨t2, ht2⟩
    have e10 : (1 : Scalar) = t1 * d 0 := by simpa using congrFun ht1 0
    have e11 : (0 : Scalar) = t1 * d 1 := by simpa using congrFun ht1 1
    have e21 : (1 : Scalar) = t2 * d 1 := by simpa using congrFun ht2 1
    have ht1ne : t1 ≠ 0 := by
      intro h
      rw [h, zero_mul] at e10
      exact one_ne_zero e10
    have hd1 : d 1 = 0 := by
      rcases mul_eq_zero.mp e11.symm with h | h
      · exact absurd h ht1ne
      · exact h
    rw [hd1, mul_zero] at e21
    exact one_ne_zero e21
  exact ⟨⟨h3, hnc⟩, ncc_stable_and_extreme_order wSol3 wQ wL h3 hnc⟩

/-!  ## Helper lemmas: accumulation of the two-pass estimator -/

lemma proj_addNeighbor_pass (s : ProjectedNormalCovarianceCurvature) (p : DataPoint) :
    ((s.addNeighbor p).2).m_pass = s.m_pass := by
  unfold ProjectedNormalCovarianceCurvature.addNeighbor
  split_ifs with h
  · rfl
  · cases hp : s.m_pass <;> simp

lemma proj_addNeighbor_evalPos (s : ProjectedNormalCovarianceCurvature) (p : DataPoint) :
    ((s.addNeighbor p).2).m_evalPos = s.m_evalPos := by
  unfold ProjectedNormalCovarianceCurvature.addNeighbor
  split_ifs with h
  · rfl
  · cases hp : s.m_pass <;> simp

lemma proj_addNeighbor_count (s : ProjectedNormalCovarianceCurvature) (p : DataPoint) :
    ((s.addNeighbor p).2).m_count =
      s.m_count + (if vecBEq3 p.pos s.m_evalPos then 0 else 1) := by
  unfold ProjectedNormalCovarianceCurvature.addNeighbor
  split_ifs with h
  · simp
  · cases hp : s.m_pass <;> simp

lemma proj_accum_pass (s : ProjectedNormalCovarianceCurvature) (l : List DataPoint) :
    (s.accum l).m_pass = s.m_pass := by
  induction l generalizing s with
  | nil => rfl
  | cons p t ih =>
      rw [show s.accum (p :: t) = ((s.addNeighbor p).2).accum t from rfl, ih,
          proj_addNeighbor_pass]

lemma proj_accum_evalPos (s : ProjectedNormalCovarianceCurvature) (l : List DataPoint) :
    (s.accum l).m_evalPos = s.m_evalPos := by
  induction l generalizing s with
  | nil => rfl
  | cons p t ih =>
      rw [show s.accum (p :: t) = ((s.addNeighbor p).2).accum t from rfl, ih,
          proj_addNeighbor_evalPos]

lemma proj_accum_count (s : ProjectedNormalCovarianceCurvature) (l : List DataPoint) :
    (s.accum l).m_count = s.m_count + acceptedCount s.m_evalPos l := by
  induction l generalizing s with
  | nil => simp [ProjectedNormalCovarianceCurvature.accum, acceptedCount, acceptedNeighbors]
  | cons p t ih =>
      rw [show s.accum (p :: t) = ((s.addNeighbor p).2).accum t from rfl, ih,
          proj_addNeighbor_count, proj_addNeighbor_evalPos]
      by_cases h : vecBEq3 p.pos s.m_evalPos <;>
        simp [h, acceptedCount, acceptedNeighbors, List.filter_cons] <;> omega

lemma proj_finalize_first (sol : Mat22 → SelfAdjointEigenSolver2)
    (frameOf : VectorType → VectorType × VectorType)
    (pn : VectorType) (pr : FIT_RESULT) (s : ProjectedNormalCovarianceCurvature)
    (hp : s.m_pass = PASS.FIRST_PASS) (hpr : pr ≠ FIT_RESULT.UNDEFINED) :
    s.finalize sol frameOf pn pr =
      (FIT_RESULT.NEED_OTHER_PASS,
       { s with m_tframe := frameOf pn, m_pass := PASS.SECOND_PASS }) := by
  unfold ProjectedNormalCovarianceCurvature.finalize
  rw [hp]
  simp [hpr]

lemma proj_finalize_second_stable (sol : Mat22 → SelfAdjointEigenSolver2)
    (frameOf : VectorType → VectorType × VectorType)
    (pn : VectorType) (pr : FIT_RESULT) (s : ProjectedNormalCovarianceCurvature)
    (hp : s.m_pass = PASS.SECOND_PASS) (hcnt : ¬ s.m_count < 2) :
    (s.finalize sol frameOf pn pr).1 = FIT_RESULT.STABLE := by
  unfold ProjectedNormalCovarianceCurvature.finalize
  rw [hp]
  simp [hcnt]

/-- Claim C4: on the two-pass estimator with a valid plane-fit
collaborator, finalize of the first pass returns NEED_OTHER_PASS, and
finalize of the second pass over the same neighbor set returns STABLE
given sufficient samples. -/
theorem proj_two_pass_protocol (sol : Mat22 → SelfAdjointEigenSolver2)
    (frameOf : VectorType → VectorType × VectorType)
    (pn : VectorType) (pr : FIT_RESULT) (q : VectorType) (l : List DataPoint)
    (hpr : pr ≠ FIT_RESULT.UNDEFINED) (h2 : 2 ≤ acceptedCount q l) :
    (projPassOne sol frameOf pn pr q l).1 = FIT_RESULT.NEED_OTHER_PASS ∧
    (projPassTwo sol frameOf pn pr q l).1 = FIT_RESULT.STABLE := by
  have hp1 : ((ProjectedNormalCovarianceCurvature.create.init q).accum l).m_pass =
      PASS.FIRST_PASS := by
    rw [proj_accum_pass]
    rfl
  have hfin1 := proj_finalize_first sol frameOf pn pr _ hp1 hpr
  have hpass2 : (projPassOne sol frameOf pn pr q l).2.m_pass = PASS.SECOND_PASS := by
    unfold projPassOne
    rw [hfin1]
  have hcnt : (((projPassOne sol frameOf pn pr q l).2.init q).accum l).m_count =
      acceptedCount q l := by
    rw [proj_accum_count]
    show 0 + acceptedCount q l = acceptedCount q l
    omega
  have hp2 : (((projPassOne sol frameOf pn pr q l).2.init q).accum l).m_pass =
      PASS.SECOND_PASS := by
    rw [proj_accum_pass]
    exact hpass2
  constructor
  · unfold projPassOne
    rw [hfin1]
  · unfold projPassTwo
    exact proj_finalize_second_stable sol frameOf pn pr _ hp2 (by omega)

/-- Witness for claim C4 on a concrete three-sample neighborhood with a
STABLE plane fit. -/
theorem proj_two_pass_protocol_witness :
    (FIT_RESULT.STABLE ≠ FIT_RESULT.UNDEFINED ∧ 2 ≤ acceptedCount wQ wL) ∧
    ((projPassOne wSol2 wFrame ![0, 0, 1] FIT_RESULT.STABLE wQ wL).1 =
       FIT_RESULT.NEED_OTHER_PASS ∧
     (projPassTwo wSol2 wFrame ![0, 0, 1] FIT_RESULT.STABLE wQ wL).1 =
       FIT_RESULT.STABLE) :=
  ⟨⟨by decide, by decide⟩,
   proj_two_pass_protocol wSol2 wFrame ![0, 0, 1] FIT_RESULT.STABLE wQ wL
     (by decide) (by decide)⟩

/-!  ## The covariance identity: accumulated sums against the spec form -/

lemma listCovariance_closed (ns : List VectorType) (h : (ns.length : Scalar) ≠ 0) :
    listCovariance ns = fun i j =>
      ((ns.map (fun n => outer3 n n)).sum) i j -
        (ns.length : Scalar) * (centroid ns i * centroid ns j) := by
  funext i j
  unfold listCovariance
  rw [msum_apply, List.map_map, msum_apply, List.map_map]
  simp only [Function.comp_def, outer3, Pi.sub_apply]
  have expand : (ns.map (fun n =>
        (n i - centroid ns i) * (n j - centroid ns j))).sum =
      (ns.map (fun n =>
        (n i * n j + -(centroid ns j) * n i) +
        (-(centroid ns i) * n j + centroid ns j * centroid ns i))).sum := by
    congr 1
    apply List.map_congr_left
    intro n _
    ring
  rw [expand, sum_map_addS, sum_map_addS, sum_map_addS, sum_map_mulS, sum_map_mulS,
      sum_map_constS, ← vsum_apply, ← vsum_apply]
  simp only [centroid, Pi.smul_apply, smul_eq_mul]
  field_simp
  ring

lemma ncc_covMatrix_eq (q : VectorType) (l : List DataPoint)
    (h : acceptedCount q l ≠ 0) :
    ((NormalCovarianceCurvature.init q).accum l).covMatrix =
      listCovariance (acceptedNormals q l) := by
  have hcog : ((NormalCovarianceCurvature.init q).accum l).m_cog =
      (acceptedNormals q l).sum := by
    have := ncc_accum_cog (NormalCovarianceCurvature.init q) l
    simpa [NormalCovarianceCurvature.init] using this
  have hcov : ((NormalCovarianceCurvature.init q).accum l).m_cov =
      ((acceptedNormals q l).map (fun n => outer3 n n)).sum := by
    have := ncc_accum_cov (NormalCovarianceCurvature.init q) l
    simpa [NormalCovarianceCurvature.init] using this
  have hcnt : ((NormalCovarianceCurvature.init q).accum l).m_count =
      acceptedCount q l := by
    have := ncc_accum_count (NormalCovarianceCurvature.init q) l
    simpa [NormalCovarianceCurvature.init] using this
  have hlen : (acceptedNormals q l).length = acceptedCount q l := by
    simp [acceptedNormals, acceptedCount]
  have hne : ((acceptedNormals q l).length : Scalar) ≠ 0 := by
    rw [hlen]
    exact_mod_cast h
  rw [listCovariance_closed _ hne]
  funext i j
  simp only [NormalCovarianceCurvature.covMatrix, hcov, hcog, hcnt, centroid, hlen]

/-- Claim C1: the single-pass finalize computes the covariance of the
accepted neighbor normals about their centroid, cov equal to the sum of
the outer products of the deviations from the mean normal, and reports
as (k1, v1) and (k2, v2) the eigenpairs of cov whose eigenvalues have
the largest and the smallest absolute value among those returned by the
solver. -/
theorem ncc_finalize_covariance_and_selection
    (sol : MatrixType → SelfAdjointEigenSolver3) (q : VectorType) (l : List DataPoint)
    (h3 : 3 ≤ acceptedCount q l)
    (hsol : IsEigenDecomp3 ((nccCompute sol q l).2.m_cov)
      (sol ((nccCompute sol q l).2.m_cov))) :
    (nccCompute sol q l).2.m_cov = listCovariance (acceptedNormals q l) ∧
    (mulVec3 ((nccCompute sol q l).2.m_cov) ((nccCompute sol q l).2.m_v1) =
        (nccCompute sol q l).2.m_k1 • (nccCompute sol q l).2.m_v1 ∧
      (nccCompute sol q l).2.m_v1 ≠ 0) ∧
    (mulVec3 ((nccCompute sol q l).2.m_cov) ((nccCompute sol q l).2.m_v2) =
        (nccCompute sol q l).2.m_k2 • (nccCompute sol q l).2.m_v2 ∧
      (nccCompute sol q l).2.m_v2 ≠ 0) ∧
    (∃ i : Fin 3,
      (nccCompute sol q l).2.m_k1 = (sol ((nccCompute sol q l).2.m_cov)).eigenvalues i ∧
      (nccCompute sol q l).2.m_v1 = (sol ((nccCompute sol q l).2.m_cov)).eigenvectors i ∧
      ∀ k : Fin 3, |(sol ((nccCompute sol q l).2.m_cov)).eigenvalues k| ≤
        |(sol ((nccCompute sol q l).2.m_cov)).eigenvalues i|) ∧
    (∃ i : Fin 3,
      (nccCompute sol q l).2.m_k2 = (sol ((nccCompute sol q l).2.m_cov)).eigenvalues i ∧
      (nccCompute sol q l).2.m_v2 = (sol ((nccCompute sol q l).2.m_cov)).eigenvectors i ∧
      ∀ k : Fin 3, |(sol ((nccCompute sol q l).2.m_cov)).eigenvalues i| ≤
        |(sol ((nccCompute sol q l).2.m_cov)).eigenvalues k|) := by
  have hcnt : ((NormalCovarianceCurvature.init q).accum l).m_count = acceptedCount q l := by
    have := ncc_accum_count (NormalCovarianceCurvature.init q) l
    simpa [NormalCovarianceCurvature.init] using this
  have hlt : ¬ ((NormalCovarianceCurvature.init q).accum l).m_count < 3 := by omega
  have hcov2 : (nccCompute sol q l).2.m_cov =
      ((NormalCovarianceCurvature.init q).accum l).covMatrix := by
    simp [nccCompute, NormalCovarianceCurvature.finalize, hlt]
  have hk1 : (nccCompute sol q l).2.m_k1 =
      (sol ((NormalCovarianceCurvature.init q).accum l).covMatrix).eigenvalues
        (argmaxAbs3 ((sol ((NormalCovarianceCurvature.init q).accum l).covMatrix).eigenvalues)) := by
    simp [nccCompute, NormalCovarianceCurvature.finalize, hlt]
  have hv1 : (nccCompute sol q l).2.m_v1 =
      (sol ((NormalCovarianceCurvature.init q).accum l).covMatrix).eigenvectors
        (argmaxAbs3 ((sol ((NormalCovarianceCurvature.init q).accum l).covMatrix).eigenvalues)) := by
    simp [nccCompute, NormalCovarianceCurvature.finalize, hlt]
  have hk2 : (nccCompute sol q l).2.m_k2 =
      (sol ((NormalCovarianceCurvature.init q).accum l).covMatrix).eigenvalues
        (argminAbs3 ((sol ((NormalCovarianceCurvature.init q).accum l).covMatrix).eigenvalues)) := by
    simp [nccCompute, NormalCovarianceCurvature.finalize, hlt]
  have hv2 : (nccCompute sol q l).2.m_v2 =
      (sol ((NormalCovarianceCurvature.init q).accum l).covMatrix).eigenvectors
        (argminAbs3 ((sol ((NormalCovarianceCurvature.init q).accum l).covMatrix).eigenvalues)) := by
    simp [nccCompute, NormalCovarianceCurvature.finalize, hlt]
  rw [hcov2] at hsol
  simp only [hcov2, hk1, hv1, hk2, hv2]
  refine ⟨ncc_covMatrix_eq q l (by omega), ⟨hsol.1 _, hsol.2.1 _⟩, ⟨hsol.1 _, hsol.2.1 _⟩,
    ⟨argmaxAbs3 _, rfl, rfl, fun k => le_abs_argmaxAbs3 _ k⟩,
    ⟨argminAbs3 _, rfl, rfl, fun k => abs_argminAbs3_le _ k⟩⟩

/-- Witness for claim C1 on a concrete three-sample neighborhood and a
concrete valid solver. -/
theorem ncc_finalize_covariance_and_selection_witness :
    (3 ≤ acceptedCount wQ wL ∧
     IsEigenDecomp3 ((nccCompute wSol3 wQ wL).2.m_cov)
       (wSol3 ((nccCompute wSol3 wQ wL).2.m_cov))) ∧
    ((nccCompute wSol3 wQ wL).2.m_cov = listCovariance (acceptedNormals wQ wL) ∧
    (mulVec3 ((nccCompute wSol3 wQ wL).2.m_cov) ((nccCompute wSol3 wQ wL).2.m_v1) =
        (nccCompute wSol3 wQ wL).2.m_k1 • (nccCompute wSol3 wQ wL).2.m_v1 ∧
      (nccCompute wSol3 wQ wL).2.m_v1 ≠ 0) ∧
    (mulVec3 ((nccCompute wSol3 wQ wL).2.m_cov) ((nccCompute wSol3 wQ wL).2.m_v2) =
        (nccCompute wSol3 wQ wL).2.m_k2 • (nccCompute wSol3 wQ wL).2.m_v2 ∧
      (nccCompute wSol3 wQ wL).2.m_v2 ≠ 0) ∧
    (∃ i : Fin 3,
      (nccCompute wSol3 wQ wL).2.m_k1 =
        (wSol3 ((nccCompute wSol3 wQ wL).2.m_cov)).eigenvalues i ∧
      (nccCompute wSol3 wQ wL).2.m_v1 =
        (wSol3 ((nccCompute wSol3 wQ wL).2.m_cov)).eigenvectors i ∧
      ∀ k : Fin 3, |(wSol3 ((nccCompute wSol3 wQ wL).2.m_cov)).eigenvalues k| ≤
        |(wSol3 ((nccCompute wSol3 wQ wL).2.m_cov)).eigenvalues i|) ∧
    (∃ i : Fin 3,
      (nccCompute wSol3 wQ wL).2.m_k2 =
        (wSol3 ((nccCompute wSol3 wQ wL).2.m_cov)).eigenvalues i ∧
      (nccCompute wSol3 wQ wL).2.m_v2 =
        (wSol3 ((nccCompute wSol3 wQ wL).2.m_cov)).eigenvectors i ∧
      ∀ k : Fin 3, |(wSol3 ((nccCompute wSol3 wQ wL).2.m_cov)).eigenvalues i| ≤
        |(wSol3 ((nccCompute wSol3 wQ wL).2.m_cov)).eigenvalues k|)) := by
  have hlt : ¬ ((NormalCovarianceCurvature.init wQ).accum wL).m_count < 3 := by decide
  have hM : (nccCompute wSol3 wQ wL).2.m_cov = wCov := by
    have hcov2 : (nccCompute wSol3 wQ wL).2.m_cov =
        ((NormalCovarianceCurvature.init wQ).accum wL).covMatrix := by
      simp [nccCompute, NormalCovarianceCurvature.finalize, hlt]
    rw [hcov2]
    have hcog : ((NormalCovarianceCurvature.init wQ).accum wL).m_cog =
        (acceptedNormals wQ wL).sum := by
      have := ncc_accum_cog (NormalCovarianceCurvature.init wQ) wL
      simpa [NormalCovarianceCurvature.init] using this
    have hcv : ((NormalCovarianceCurvature.init wQ).accum wL).m_cov =
        ((acceptedNormals wQ wL).map (fun n => outer3 n n)).sum := by
      have := ncc_accum_cov (NormalCovarianceCurvature.init wQ) wL
      simpa [NormalCovarianceCurvature.init] using this
    have hcnt : ((NormalCovarianceCurvature.init wQ).accum wL).m_count = 3 := by decide
    have hns : acceptedNormals wQ wL = [![1, 0, 0], ![0, 1, 0], ![0, 0, 1]] := by decide
    rw [hns] at hcog hcv
    funext i j
    simp only [NormalCovarianceCurvature.covMatrix, hcog, hcv, hcnt, wCov]
    fin_cases i <;> fin_cases j <;>
      norm_num [outer3, Matrix.cons_val_zero, Matrix.cons_val_one, Matrix.head_cons,
        List.sum_cons, List.sum_nil, Pi.add_apply, Pi.smul_apply, smul_eq_mul,
        Matrix.cons_val_succ, Fin.ext_iff]
  have hsolM : IsEigenDecomp3 wCov (wSol3 wCov) := by
    refine ⟨?_, ?_, ?_⟩
    · intro k
      fin_cases k <;> funext i <;> fin_cases i <;>
        norm_num [mulVec3, wCov, wSol3, Pi.smul_apply, smul_eq_mul,
          Matrix.cons_val_zero, Matrix.cons_val_one, Matrix.head_cons,
          Matrix.cons_val_succ, Fin.ext_iff]
    · intro k
      fin_cases k <;> decide
    · constructor <;> norm_num [wSol3]
  have hsol : IsEigenDecomp3 ((nccCompute wSol3 wQ wL).2.m_cov)
      (wSol3 ((nccCompute wSol3 wQ wL).2.m_cov)) := by
    rw [hM]
    exact hsolM
  exact ⟨⟨by decide, hsol⟩,
    ncc_finalize_covariance_and_selection wSol3 wQ wL (by decide) hsol⟩

/-!  ## Flat neighborhoods -/

lemma vsum_of_const (ns : List VectorType) (a : VectorType)
    (h : ∀ n ∈ ns, n = a) (i : Fin 3) :
    ns.sum i = (ns.length : Scalar) * a i := by
  induction ns with
  | nil => simp
  | cons b t ih =>
      have hb : b = a := h b (by simp)
      have ht : ∀ n ∈ t, n = a := fun n hn => h n (by simp [hn])
      simp [List.sum_cons, Pi.add_apply, ih ht, hb]
      ring

lemma listCovariance_of_const (ns : List VectorType) (a : VectorType)
    (h : ∀ n ∈ ns, n = a) (hlen : (ns.length : Scalar) ≠ 0) :
    listCovariance ns = 0 := by
  funext i j
  rw [listCovariance_closed ns hlen]
  have hOij : ((ns.map (fun n => outer3 n n)).sum) i j =
      (ns.length : Scalar) * (a i * a j) := by
    rw [msum_apply, List.map_map]
    have : ns.map ((fun M => M i j) ∘ fun n => outer3 n n) =
        ns.map (fun _ => a i * a j) := by
      apply List.map_congr_left
      intro n hn
      simp [Function.comp_def, outer3, h n hn]
    rw [this, sum_map_constS]
  have hci : centroid ns i = a i := by
    simp only [centroid, Pi.smul_apply, smul_eq_mul, vsum_of_const ns a h i]
    field_simp
  have hcj : centroid ns j = a j := by
    simp only [centroid, Pi.smul_apply, smul_eq_mul, vsum_of_const ns a h j]
    field_simp
  simp [hOij, hci, hcj]

lemma mulVec3_zero (v : VectorType) : mulVec3 0 v = 0 := by
  funext i
  simp [mulVec3]

/-- Claim C8: on a neighbor set with at least 3 accepted samples whose
normals are all exactly (0, 0, 1), the single-pass finalize returns
STABLE and k1, k2, kMean and the Gaussian curvature are all zero. -/
theorem ncc_flat_neighborhood_zero_curvature
    (sol : MatrixType → SelfAdjointEigenSolver3) (q : VectorType) (l : List DataPoint)
    (h3 : 3 ≤ acceptedCount q l)
    (hflat : ∀ p ∈ l, p.normal = ![0, 0, 1])
    (hsol : IsEigenDecomp3 ((nccCompute sol q l).2.m_cov)
      (sol ((nccCompute sol q l).2.m_cov))) :
    (nccCompute sol q l).1 = FIT_RESULT.STABLE ∧
    (nccCompute sol q l).2.toBaseCurvatureEstimator.k1 = 0 ∧
    (nccCompute sol q l).2.toBaseCurvatureEstimator.k2 = 0 ∧
    (nccCompute sol q l).2.toBaseCurvatureEstimator.kMean = 0 ∧
    (nccCompute sol q l).2.toBaseCurvatureEstimator.GaussianCurvature = 0 := by
  have hcnt : ((NormalCovarianceCurvature.init q).accum l).m_count = acceptedCount q l := by
    have := ncc_accum_count (NormalCovarianceCurvature.init q) l
    simpa [NormalCovarianceCurvature.init] using this
  have hlt : ¬ ((NormalCovarianceCurvature.init q).accum l).m_count < 3 := by omega
  have hcov2 : (nccCompute sol q l).2.m_cov =
      ((NormalCovarianceCurvature.init q).accum l).covMatrix := by
    simp [nccCompute, NormalCovarianceCurvature.finalize, hlt]
  have hflatacc : ∀ n ∈ acceptedNormals q l, n = ![0, 0, 1] := by
    intro n hn
    rcases List.mem_map.mp hn with ⟨p, hp, hpn⟩
    have hpl : p ∈ l := (List.mem_filter.mp hp).1
    rw [← hpn]
    exact hflat p hpl
  have hlen : (acceptedNormals q l).length = acceptedCount q l := by
    simp [acceptedNormals, acceptedCount]
  have hlenne : ((acceptedNormals q l).length : Scalar) ≠ 0 := by
    rw [hlen]
    have : acceptedCount q l ≠ 0 := by omega
    exact_mod_cast this
  have hzero : (nccCompute sol q l).2.m_cov = 0 := by
    rw [hcov2, ncc_covMatrix_eq q l (by omega)]
    exact listCovariance_of_const _ _ hflatacc hlenne
  rw [hzero] at hsol
  have hval : ∀ k : Fin 3, (sol 0).eigenvalues k = 0 := by
    intro k
    have heq := hsol.1 k
    rw [mulVec3_zero] at heq
    rcases smul_eq_zero.mp heq.symm with h0 | h0
    · exact h0
    · exact absurd h0 (hsol.2.1 k)
  have hk1 : (nccCompute sol q l).2.m_k1 = 0 := by
    have hh : (nccCompute sol q l).2.m_k1 =
        (sol ((NormalCovarianceCurvature.init q).accum l).covMatrix).eigenvalues
          (argmaxAbs3 ((sol ((NormalCovarianceCurvature.init q).accum l).covMatrix).eigenvalues)) := by
      simp [nccCompute, NormalCovarianceCurvature.finalize, hlt]
    rw [hh, ← hcov2, hzero]
    exact hval _
  have hk2 : (nccCompute sol q l).2.m_k2 = 0 := by
    have hh : (nccCompute sol q l).2.m_k2 =
        (sol ((NormalCovarianceCurvature.init q).accum l).covMatrix).eigenvalues
          (argminAbs3 ((sol ((NormalCovarianceCurvature.init q).accum l).covMatrix).eigenvalues)) := by
      simp [nccCompute, NormalCovarianceCurvature.finalize, hlt]
    rw [hh, ← hcov2, hzero]
    exact hval _
  refine ⟨by simp [nccCompute, NormalCovarianceCurvature.finalize, hlt], ?_, ?_, ?_, ?_⟩
  · exact hk1
  · exact hk2
  · simp [BaseCurvatureEstimator.kMean, hk1, hk2]
  · simp [BaseCurvatureEstimator.GaussianCurvature, hk1, hk2]

/-- Witness for claim C8 on a concrete flat three-sample neighborhood. -/
theorem ncc_flat_neighborhood_zero_curvature_witness :
    (3 ≤ acceptedCount wQ fL ∧
     (∀ p ∈ fL, p.normal = ![0, 0, 1]) ∧
     IsEigenDecomp3 ((nccCompute fSol3 wQ fL).2.m_cov)
       (fSol3 ((nccCompute fSol3 wQ fL).2.m_cov))) ∧
    ((nccCompute fSol3 wQ fL).1 = FIT_RESULT.STABLE ∧
     (nccCompute fSol3 wQ fL).2.toBaseCurvatureEstimator.k1 = 0 ∧
     (nccCompute fSol3 wQ fL).2.toBaseCurvatureEstimator.k2 = 0 ∧
     (nccCompute fSol3 wQ fL).2.toBaseCurvatureEstimator.kMean = 0 ∧
     (nccCompute fSol3 wQ fL).2.toBaseCurvatureEstimator.GaussianCurvature = 0) := by
  have hlt : ¬ ((NormalCovarianceCurvature.init wQ).accum fL).m_count < 3 := by decide
  have hM0 : (nccCompute fSol3 wQ fL).2.m_cov = 0 := by
    have hcov2 : (nccCompute fSol3 wQ fL).2.m_cov =
        ((NormalCovarianceCurvature.init wQ).accum fL).covMatrix := by
      simp [nccCompute, NormalCovarianceCurvature.finalize, hlt]
    have hflatacc : ∀ n ∈ acceptedNormals wQ fL, n = ![0, 0, 1] := by decide
    have hlen3 : (acceptedNormals wQ fL).length = 3 := by decide
    have hlenne : ((acceptedNormals wQ fL).length : Scalar) ≠ 0 := by
      rw [hlen3]
      norm_num
    rw [hcov2, ncc_covMatrix_eq wQ fL (by decide)]
    exact listCovariance_of_const _ _ hflatacc hlenne
  have hsolF : IsEigenDecomp3 (0 : MatrixType) (fSol3 0) := by
    refine ⟨?_, ?_, ?_⟩
    · intro k
      fin_cases k <;> funext i <;> fin_cases i <;>
        norm_num [mulVec3, fSol3, Pi.smul_apply, smul_eq_mul, Pi.zero_apply,
          Matrix.cons_val_zero, Matrix.cons_val_one, Matrix.head_cons,
          Matrix.cons_val_succ, Fin.ext_iff]
    · intro k
      fin_cases k <;> decide
    · constructor <;> norm_num [fSol3]
  have hsol : IsEigenDecomp3 ((nccCompute fSol3 wQ fL).2.m_cov)
      (fSol3 ((nccCompute fSol3 wQ fL).2.m_cov)) := by
    rw [hM0]
    exact hsolF
  exact ⟨⟨by decide, by decide, hsol⟩,
    ncc_flat_neighborhood_zero_curvature fSol3 wQ fL (by decide) (by decide) hsol⟩

end Ponca
